import Mathlib

/-!
Shallow embedding of `src/lib.rs` of the mumble-link repository: a JNI
adapter that publishes game pose data into the Mumble "Link" shared-memory
record.

Modelling conventions:
* `f32`/`f64` values are never computed with, only copied, so they are
  modelled by an arbitrary type parameter `F` (the `as f32` cast in
  `mumble_vec_to_float_slice` is the identity on these opaque values).
* Wide code units (`u32` on Linux, written by `memcpy` from a
  `WideCString`) and raw bytes are modelled as `Nat`; the fixed-size
  arrays `[u32; 256]`, `[u8; 256]`, `[u32; 2048]` are modelled as lists,
  and `memcpy(src, dst, src.len())` as overwriting the prefix of the
  destination of length `src.length`.
* Fallible JNI field extraction (`env.get_field(..)?`) is modelled by
  `Option` fields in the input bundle `LinkData`; the `?`-propagation in
  `update_mumblelink` becomes an early return with success flag `false`.
  Since the Rust function mutates the shared record in place and returns
  `Result<(), JNIError>`, the model returns the record state at the moment
  of return together with the success flag.
* The OS calls in `init_mumble_link` (`shm_open`/`ftruncate`/`mmap`) are
  not re-executed; their combined outcome is an oracle parameter
  `attach : Except Errno (MumbleLink F)` fed to the JNI `init` entry
  point, whose own control flow is taken from the source.
* `u32` arithmetic (`ui_tick += 1`, `context_len as u32`) is modelled on
  `Nat` with explicit `% 2 ^ 32`.
-/

namespace Mumble

/-- A `[f32; 3]` slice, components opaque. Mirrors the targets of
`copy_from_slice` in `update_mumblelink`. -/
structure FloatSlice3 (F : Type) where
  c0 : F
  c1 : F
  c2 : F
deriving DecidableEq

/-- The fields of a `com.moonsworth.client.mumble.MumbleVec` Java object
(doubles `xCoord`, `yCoord`, `zCoord`). -/
structure MumbleVec (F : Type) where
  xCoord : F
  yCoord : F
  zCoord : F
deriving DecidableEq

/-- A struct representation of the shared memory of the Link Plugin
(`struct MumbleLink`, src/lib.rs lines 36-57), field for field in source
order. -/
structure MumbleLink (F : Type) where
  ui_version : Nat
  ui_tick : Nat
  avatar_position : FloatSlice3 F
  avatar_front : FloatSlice3 F
  avatar_top : FloatSlice3 F
  name : List Nat
  camera_position : FloatSlice3 F
  camera_front : FloatSlice3 F
  camera_top : FloatSlice3 F
  identity : List Nat
  context_len : Nat
  context : List Nat
  description : List Nat
deriving DecidableEq

/-- The input bundle: the `link_data` Java object as seen through the
fallible JNI getters used by `update_mumblelink`. A `none` field models a
`JNIError` when extracting that field. -/
structure LinkData (F : Type) where
  avatarPosition : Option (MumbleVec F)
  avatarFront : Option (MumbleVec F)
  avatarTop : Option (MumbleVec F)
  cameraPosition : Option (MumbleVec F)
  cameraFront : Option (MumbleVec F)
  cameraTop : Option (MumbleVec F)
  playerName : Option (List Nat)
  context : Option (List Nat)
deriving DecidableEq

/-- Code units of an ASCII Rust string literal. -/
def strUnits (s : String) : List Nat :=
  s.data.map Char.toNat

/-- `PLUGIN_NAME = WideCString::from_str("Minecraft")`, without the nul. -/
def PLUGIN_NAME : List Nat := strUnits "Minecraft"

/-- `PLUGIN_DESCRIPTION = WideCString::from_str("Mumble Link implementation
for Lunar Client.")`, without the nul. -/
def PLUGIN_DESCRIPTION : List Nat :=
  strUnits "Mumble Link implementation for Lunar Client."

/-- `memcpy(src.as_ptr(), dst.as_mut_ptr(), src.len())` on unit buffers:
overwrite the first `src.length` slots of `dst`, keep the rest. -/
def memcpyUnits (src dst : List Nat) : List Nat :=
  src ++ dst.drop src.length

variable {F : Type}

/-- `mumble_vec_to_float_slice` (src/lib.rs lines 92-102): the resultant
slice is in X Z Y order due to a bug in the original DLL. -/
def mumble_vec_to_float_slice (v : MumbleVec F) : FloatSlice3 F :=
  ⟨v.xCoord, v.zCoord, v.yCoord⟩

/-- `get_vec` (src/lib.rs lines 105-107): fallible extraction of a
`MumbleVec` field followed by `mumble_vec_to_float_slice`. -/
def get_vec (o : Option (MumbleVec F)) : Option (FloatSlice3 F) :=
  o.map mumble_vec_to_float_slice

/-- `update_mumblelink` (src/lib.rs lines 121-182). Returns the record
state at the moment of return (the Rust code mutates shared memory in
place) together with a success flag (`true` = `Ok(())`). -/
def update_mumblelink (d : LinkData F) (m0 : MumbleLink F) :
    MumbleLink F × Bool :=
  let m1 :=
    if m0.ui_version ≠ 2 then
      { m0 with
        name := memcpyUnits (PLUGIN_NAME ++ [0]) m0.name
        description := memcpyUnits (PLUGIN_DESCRIPTION ++ [0]) m0.description
        ui_version := 2 }
    else m0
  let m2 := { m1 with ui_tick := (m1.ui_tick + 1) % 2 ^ 32 }
  match get_vec d.avatarPosition with
  | none => (m2, false)
  | some v =>
    let m3 := { m2 with avatar_position := v }
    match get_vec d.avatarFront with
    | none => (m3, false)
    | some v =>
      let m4 := { m3 with avatar_front := v }
      match get_vec d.avatarTop with
      | none => (m4, false)
      | some v =>
        let m5 := { m4 with avatar_top := v }
        match get_vec d.cameraPosition with
        | none => (m5, false)
        | some v =>
          let m6 := { m5 with camera_position := v }
          match get_vec d.cameraFront with
          | none => (m6, false)
          | some v =>
            let m7 := { m6 with camera_front := v }
            match get_vec d.cameraTop with
            | none => (m7, false)
            | some v =>
              let m8 := { m7 with camera_top := v }
              match d.playerName with
              | none => (m8, false)
              | some pn =>
                let m9 := { m8 with identity := memcpyUnits (pn ++ [0]) m8.identity }
                match d.context with
                | none => (m9, false)
                | some cx =>
                  let m10 :=
                    { m9 with
                      context := memcpyUnits cx m9.context
                      context_len := cx.length % 2 ^ 32 }
                  (m10, true)

/-- The record state after one `update_mumblelink` call, successful or
not (in the source the mutations performed before a failing extraction
persist in shared memory). -/
def updState (d : LinkData F) (m : MumbleLink F) : MumbleLink F :=
  (update_mumblelink d m).1

/-- State after a sequence of update calls. -/
def updSeq (ds : List (LinkData F)) (m : MumbleLink F) : MumbleLink F :=
  ds.foldl (fun m d => updState d m) m

/-- State after a sequence of update calls, defined only when every call
succeeds. -/
def updSeqOk : List (LinkData F) → MumbleLink F → Option (MumbleLink F)
  | [], m => some m
  | d :: ds, m =>
    match update_mumblelink d m with
    | (m', true) => updSeqOk ds m'
    | (_, false) => none

/-- The errno values distinguished by the source (`Errno::ENOENT` versus
everything else; `as_errno().unwrap_or(UnknownErrno)`). -/
inductive Errno where
  | ENOENT
  | EACCES
  | UnknownErrno
deriving DecidableEq

/-- Observable outcome of the JNI `init` entry point: the returned `jint`,
the guard slot (`MUMBLE_LINK`) after the call, and whether an error line
was printed to stderr. -/
structure InitResult (F : Type) where
  ret : Int
  guard : Option (MumbleLink F)
  loggedError : Bool
deriving DecidableEq

/-- `Java_com_moonsworth_client_mumble_MumbleLink_init`
(src/lib.rs lines 184-204). `attach` is the outcome of the
`init_mumble_link()` OS sequence (`shm_open`/`ftruncate`/`mmap`), an
oracle since it is pure OS interaction; `guard` is the state of the
`MUMBLE_LINK` slot before the call. -/
def Java_com_moonsworth_client_mumble_MumbleLink_init
    (attach : Except Errno (MumbleLink F)) (guard : Option (MumbleLink F)) :
    InitResult F :=
  match attach with
  | Except.ok link => ⟨0, some link, false⟩
  | Except.error e =>
      ⟨-1, guard, if e = Errno.ENOENT then false else true⟩

/-- Observable outcome of the JNI `update` entry point: either the process
terminates abnormally (a Rust `panic!`/`expect` unwinding across the
`extern "system"` boundary), or the call returns normally. Both carry the
guard slot (and through it the record state) after the call. -/
inductive UpdateOutcome (F : Type) where
  | crashed (msg : String) (guard : Option (MumbleLink F))
  | returned (guard : Option (MumbleLink F))
deriving DecidableEq

/-- `Java_com_moonsworth_client_mumble_MumbleLink_update`
(src/lib.rs lines 206-219): take the lock, `expect` a stored handle
(crash when the slot is `None`), then run `update_mumblelink` and
`panic!` on a `JNIError`. -/
def Java_com_moonsworth_client_mumble_MumbleLink_update
    (guard : Option (MumbleLink F)) (d : LinkData F) : UpdateOutcome F :=
  match guard with
  | none => UpdateOutcome.crashed "MumbleLink is None" none
  | some m =>
      match update_mumblelink d m with
      | (m', true) => UpdateOutcome.returned (some m')
      | (m', false) => UpdateOutcome.crashed "JNIError" (some m')

/-! ### Basic lemmas about one update step -/

theorem updSeq_nil (m : MumbleLink F) : updSeq [] m = m := rfl

theorem updSeq_cons (d : LinkData F) (ds : List (LinkData F))
    (m : MumbleLink F) : updSeq (d :: ds) m = updSeq ds (updState d m) := rfl

/-- Full characterisation of a successful update: when every extraction
from the bundle succeeds, the resulting record is given field by field. -/
theorem update_mumblelink_ok (d : LinkData F) (m : MumbleLink F)
    (ap af atv cp cf ct : MumbleVec F) (pn cx : List Nat)
    (hap : d.avatarPosition = some ap) (haf : d.avatarFront = some af)
    (hat : d.avatarTop = some atv) (hcp : d.cameraPosition = some cp)
    (hcf : d.cameraFront = some cf) (hct : d.cameraTop = some ct)
    (hpn : d.playerName = some pn) (hcx : d.context = some cx) :
    update_mumblelink d m =
      ({ ui_version := 2
         ui_tick := (m.ui_tick + 1) % 2 ^ 32
         avatar_position := ⟨ap.xCoord, ap.zCoord, ap.yCoord⟩
         avatar_front := ⟨af.xCoord, af.zCoord, af.yCoord⟩
         avatar_top := ⟨atv.xCoord, atv.zCoord, atv.yCoord⟩
         name := if m.ui_version = 2 then m.name
                 else memcpyUnits (PLUGIN_NAME ++ [0]) m.name
         camera_position := ⟨cp.xCoord, cp.zCoord, cp.yCoord⟩
         camera_front := ⟨cf.xCoord, cf.zCoord, cf.yCoord⟩
         camera_top := ⟨ct.xCoord, ct.zCoord, ct.yCoord⟩
         identity := memcpyUnits (pn ++ [0]) m.identity
         context_len := cx.length % 2 ^ 32
         context := memcpyUnits cx m.context
         description := if m.ui_version = 2 then m.description
                        else memcpyUnits (PLUGIN_DESCRIPTION ++ [0]) m.description },
       true) := by
  by_cases h : m.ui_version = 2 <;>
    simp [update_mumblelink, get_vec, mumble_vec_to_float_slice,
      hap, haf, hat, hcp, hcf, hct, hpn, hcx, h]

/-- Fields written before any fallible extraction (`ui_version`, `name`,
`description`, `ui_tick`) have the same value in every branch of
`update_mumblelink`, successful or not. -/
theorem updState_static (d : LinkData F) (m : MumbleLink F) :
    (updState d m).ui_version = 2 ∧
    (updState d m).ui_tick = (m.ui_tick + 1) % 2 ^ 32 ∧
    (updState d m).name =
      (if m.ui_version = 2 then m.name
       else memcpyUnits (PLUGIN_NAME ++ [0]) m.name) ∧
    (updState d m).description =
      (if m.ui_version = 2 then m.description
       else memcpyUnits (PLUGIN_DESCRIPTION ++ [0]) m.description) := by
  unfold updState update_mumblelink
  by_cases h : m.ui_version = 2 <;>
    · simp only [h]
      repeat' split
      all_goals simp_all

/-- A failing update leaves every extraction before the failure applied:
it returns the `false` flag exactly when some bundle field is `none`. -/
theorem update_ok_some (d : LinkData F) (m m' : MumbleLink F)
    (h : update_mumblelink d m = (m', true)) :
    d.avatarPosition.isSome ∧ d.avatarFront.isSome ∧ d.avatarTop.isSome ∧
    d.cameraPosition.isSome ∧ d.cameraFront.isSome ∧ d.cameraTop.isSome ∧
    d.playerName.isSome ∧ d.context.isSome := by
  unfold update_mumblelink at h
  repeat' split at h
  all_goals simp_all [get_vec, Option.isSome_iff_exists]
  all_goals tauto

/-- Once `ui_version = 2`, any further sequence of update calls leaves
`ui_version`, `name` and `description` untouched. -/
theorem updSeq_static (ds : List (LinkData F)) (m : MumbleLink F)
    (h : m.ui_version = 2) :
    (updSeq ds m).ui_version = 2 ∧ (updSeq ds m).name = m.name ∧
    (updSeq ds m).description = m.description := by
  induction ds generalizing m with
  | nil => exact ⟨h, rfl, rfl⟩
  | cons d ds ih =>
    obtain ⟨h1, -, h3, h4⟩ := updState_static d m
    rw [if_pos h] at h3 h4
    obtain ⟨g1, g2, g3⟩ := ih (updState d m) h1
    exact ⟨by rwa [updSeq_cons], by rw [updSeq_cons, g2, h3],
      by rw [updSeq_cons, g3, h4]⟩

/-- Over a sequence of successful updates the tick counter advances by the
number of calls, modulo `2 ^ 32`. -/
theorem updSeqOk_tick (ds : List (LinkData F)) (m m' : MumbleLink F)
    (h0 : m.ui_tick < 2 ^ 32) (h : updSeqOk ds m = some m') :
    m'.ui_tick = (m.ui_tick + ds.length) % 2 ^ 32 := by
  induction ds generalizing m with
  | nil =>
    simp only [updSeqOk, Option.some.injEq] at h
    subst h
    simpa using (Nat.mod_eq_of_lt h0).symm
  | cons d ds ih =>
    rw [updSeqOk] at h
    split at h
    · rename_i m1 heq
      have htick : m1.ui_tick = (m.ui_tick + 1) % 2 ^ 32 := by
        have := (updState_static d m).2.1
        rwa [updState, heq] at this
      have hlt : m1.ui_tick < 2 ^ 32 := by
        rw [htick]; exact Nat.mod_lt _ (by norm_num)
      have := ih m1 hlt h
      rw [this, htick, Nat.mod_add_mod, List.length_cons]
      congr 1
      ring
    · exact absurd h (by simp)

/-! ### Concrete fixtures used by witnesses and counterexamples.
`F` is instantiated with `Int`: float values are only copied, never
computed with, so any inhabited type with decidable equality serves. -/

/-- A zero-initialised shared record, as the OS hands out a fresh
segment: all scalars 0, all buffers zero-filled at their declared sizes
(256, 256, 256, 2048 units). -/
def zrec : MumbleLink Int :=
  { ui_version := 0
    ui_tick := 0
    avatar_position := ⟨0, 0, 0⟩
    avatar_front := ⟨0, 0, 0⟩
    avatar_top := ⟨0, 0, 0⟩
    name := List.replicate 256 0
    camera_position := ⟨0, 0, 0⟩
    camera_front := ⟨0, 0, 0⟩
    camera_top := ⟨0, 0, 0⟩
    identity := List.replicate 256 0
    context_len := 0
    context := List.replicate 256 0
    description := List.replicate 2048 0 }

/-- A bundle whose every extraction succeeds; player name "ABC"
(units 65 66 67), context bytes [1, 2]. -/
def dFull : LinkData Int :=
  { avatarPosition := some ⟨1, 2, 3⟩
    avatarFront := some ⟨4, 5, 6⟩
    avatarTop := some ⟨7, 8, 9⟩
    cameraPosition := some ⟨10, 11, 12⟩
    cameraFront := some ⟨13, 14, 15⟩
    cameraTop := some ⟨16, 17, 18⟩
    playerName := some [65, 66, 67]
    context := some [1, 2] }

/-- Like `dFull` but with the shorter player name "A" (unit 65). -/
def dShort : LinkData Int :=
  { dFull with playerName := some [65] }

/-- A bundle on which extracting `avatarFront` fails mid-update. -/
def dFail : LinkData Int :=
  { dFull with avatarFront := none }

/-! ### Claim theorems -/

/-- C1: for every input bundle and each of the six pose vectors with
input components (x, y, z), the vector stored in the shared record on a
successful update equals (x, z, y): the second stored component is the
input's Z and the third stored component is the input's Y. -/
theorem C1_axis_permutation (d : LinkData F) (m m' : MumbleLink F)
    (ap af atv cp cf ct : MumbleVec F)
    (hap : d.avatarPosition = some ap) (haf : d.avatarFront = some af)
    (hat : d.avatarTop = some atv) (hcp : d.cameraPosition = some cp)
    (hcf : d.cameraFront = some cf) (hct : d.cameraTop = some ct)
    (h : update_mumblelink d m = (m', true)) :
    m'.avatar_position = ⟨ap.xCoord, ap.zCoord, ap.yCoord⟩ ∧
    m'.avatar_front = ⟨af.xCoord, af.zCoord, af.yCoord⟩ ∧
    m'.avatar_top = ⟨atv.xCoord, atv.zCoord, atv.yCoord⟩ ∧
    m'.camera_position = ⟨cp.xCoord, cp.zCoord, cp.yCoord⟩ ∧
    m'.camera_front = ⟨cf.xCoord, cf.zCoord, cf.yCoord⟩ ∧
    m'.camera_top = ⟨ct.xCoord, ct.zCoord, ct.yCoord⟩ := by
  obtain ⟨-, -, -, -, -, -, hpn, hcx⟩ := update_ok_some d m m' h
  obtain ⟨pn, hpn⟩ := Option.isSome_iff_exists.mp hpn
  obtain ⟨cx, hcx⟩ := Option.isSome_iff_exists.mp hcx
  rw [update_mumblelink_ok d m ap af atv cp cf ct pn cx
    hap haf hat hcp hcf hct hpn hcx] at h
  injection h with h1 _
  subst h1
  exact ⟨rfl, rfl, rfl, rfl, rfl, rfl⟩

/-- Witness for C1 at a concrete bundle: avatar position (1, 2, 3) is
stored as (1, 3, 2), and likewise for the other five vectors. -/
theorem C1_axis_permutation_witness :
    (updState dFull zrec).avatar_position = ⟨1, 3, 2⟩ ∧
    (updState dFull zrec).avatar_front = ⟨4, 6, 5⟩ ∧
    (updState dFull zrec).avatar_top = ⟨7, 9, 8⟩ ∧
    (updState dFull zrec).camera_position = ⟨10, 12, 11⟩ ∧
    (updState dFull zrec).camera_front = ⟨13, 15, 14⟩ ∧
    (updState dFull zrec).camera_top = ⟨16, 18, 17⟩ :=
  C1_axis_permutation dFull zrec (updState dFull zrec)
    ⟨1, 2, 3⟩ ⟨4, 5, 6⟩ ⟨7, 8, 9⟩ ⟨10, 11, 12⟩ ⟨13, 14, 15⟩ ⟨16, 17, 18⟩
    rfl rfl rfl rfl rfl rfl rfl

/-- C2: starting from `ui_version = 0`, the first update call writes the
static name and description and sets `ui_version` to 2; across any
further sequence of update calls those three fields never change, and any
update on a record whose `ui_version` already equals 2 leaves them
untouched. -/
theorem C2_version_once (d : LinkData F) (ds : List (LinkData F))
    (m0 : MumbleLink F) (h0 : m0.ui_version = 0) :
    (updState d m0).ui_version = 2 ∧
    (updState d m0).name = memcpyUnits (PLUGIN_NAME ++ [0]) m0.name ∧
    (updState d m0).description =
      memcpyUnits (PLUGIN_DESCRIPTION ++ [0]) m0.description ∧
    (updSeq ds (updState d m0)).ui_version = 2 ∧
    (updSeq ds (updState d m0)).name = (updState d m0).name ∧
    (updSeq ds (updState d m0)).description = (updState d m0).description ∧
    (∀ (e : LinkData F) (n : MumbleLink F), n.ui_version = 2 →
      (updState e n).ui_version = n.ui_version ∧
      (updState e n).name = n.name ∧
      (updState e n).description = n.description) := by
  have hne : ¬m0.ui_version = 2 := by rw [h0]; norm_num
  obtain ⟨h1, -, h3, h4⟩ := updState_static d m0
  rw [if_neg hne] at h3 h4
  obtain ⟨g1, g2, g3⟩ := updSeq_static ds (updState d m0) h1
  refine ⟨h1, h3, h4, g1, g2, g3, fun e n hn => ?_⟩
  obtain ⟨k1, -, k3, k4⟩ := updState_static e n
  rw [if_pos hn] at k3 k4
  exact ⟨by rw [k1, hn], k3, k4⟩

/-- Witness for C2: from the zeroed record, after a first update and one
further update the protocol version is 2 and the static fields still hold
the values written by the first update. -/
theorem C2_version_once_witness :
    zrec.ui_version = 0 ∧
    (updSeq [dShort] (updState dFull zrec)).ui_version = 2 ∧
    (updSeq [dShort] (updState dFull zrec)).name = (updState dFull zrec).name :=
  ⟨rfl, (C2_version_once dFull [dShort] zrec rfl).2.2.2.1,
    (C2_version_once dFull [dShort] zrec rfl).2.2.2.2.1⟩

/-- C3: after N successful updates the tick counter equals its prior
value + N modulo `2 ^ 32`, and each individual update call increments the
tick counter by exactly 1 modulo `2 ^ 32`, unconditionally. -/
theorem C3_tick_increment (ds : List (LinkData F)) (m m' : MumbleLink F)
    (h0 : m.ui_tick < 2 ^ 32) (h : updSeqOk ds m = some m') :
    m'.ui_tick = (m.ui_tick + ds.length) % 2 ^ 32 ∧
    ∀ (e : LinkData F) (n : MumbleLink F),
      (updState e n).ui_tick = (n.ui_tick + 1) % 2 ^ 32 :=
  ⟨updSeqOk_tick ds m m' h0 h, fun e n => (updState_static e n).2.1⟩

/-- Witness for C3: two successful updates from the zeroed record bring
the tick counter from 0 to 2. -/
theorem C3_tick_increment_witness :
    (updSeq [dFull, dShort] zrec).ui_tick = (zrec.ui_tick + 2) % 2 ^ 32 :=
  (C3_tick_increment [dFull, dShort] zrec (updSeq [dFull, dShort] zrec)
    (by decide) rfl).1

/-- C4 counterexample: after an update with player name "A" (unit 65) on
the zeroed record, the 256-unit string field located between the avatar
vectors and the camera vectors (`name`) does not begin with the player
name and its terminator — it begins with "Mi" (units 77, 105) of the
static application name — while the player name lands in the `identity`
field located after the camera vectors. This refutes the claim that the
player name is copied into the field between the avatar and camera
vectors. -/
theorem C4_counterexample :
    (updState dShort zrec).name.take 2 ≠ [65, 0] ∧
    (updState dShort zrec).name.take 2 = [77, 105] ∧
    (updState dShort zrec).identity.take 2 = [65, 0] :=
  ⟨by decide, by decide, by decide⟩

/-- C4 amended: on every successful update the player name, with a null
terminator appended, is copied into the `identity` field located after
the camera vectors; the 256-unit field between the avatar and camera
vectors (`name`) instead holds the static application name, written on
the first update and left untouched afterwards. -/
theorem C4_amended_identity (d : LinkData F) (m m' : MumbleLink F)
    (pn : List Nat) (hpn : d.playerName = some pn)
    (h : update_mumblelink d m = (m', true)) :
    m'.identity = (pn ++ [0]) ++ m.identity.drop (pn.length + 1) ∧
    m'.name = (if m.ui_version = 2 then m.name
               else memcpyUnits (PLUGIN_NAME ++ [0]) m.name) := by
  obtain ⟨hap, haf, hat, hcp, hcf, hct, -, hcx⟩ := update_ok_some d m m' h
  obtain ⟨ap, hap⟩ := Option.isSome_iff_exists.mp hap
  obtain ⟨af, haf⟩ := Option.isSome_iff_exists.mp haf
  obtain ⟨atv, hat⟩ := Option.isSome_iff_exists.mp hat
  obtain ⟨cp, hcp⟩ := Option.isSome_iff_exists.mp hcp
  obtain ⟨cf, hcf⟩ := Option.isSome_iff_exists.mp hcf
  obtain ⟨ct, hct⟩ := Option.isSome_iff_exists.mp hct
  obtain ⟨cx, hcx⟩ := Option.isSome_iff_exists.mp hcx
  rw [update_mumblelink_ok d m ap af atv cp cf ct pn cx
    hap haf hat hcp hcf hct hpn hcx] at h
  injection h with h1 _
  subst h1
  exact ⟨by simp [memcpyUnits], rfl⟩

/-- Witness for the amended C4 at player name "A": the identity field
holds 65, 0 followed by the old tail, and the name field holds the static
application name. -/
theorem C4_amended_identity_witness :
    (updState dShort zrec).identity =
      ([65] ++ [0]) ++ zrec.identity.drop 2 ∧
    (updState dShort zrec).name = memcpyUnits (PLUGIN_NAME ++ [0]) zrec.name :=
  C4_amended_identity dShort zrec (updState dShort zrec) [65] rfl rfl

/-- C5 counterexample: the `init` entry point returns the same `jint`
(-1) for the segment-not-found failure (ENOENT) as for a permission
failure (EACCES), so the caller cannot distinguish the not-available
outcome from the OS-failure outcome, and no status value carries the OS
error number. This refutes the claim of three mutually distinct statuses
with `Error(code)` carrying the errno. -/
theorem C5_counterexample :
    (Java_com_moonsworth_client_mumble_MumbleLink_init
      (Except.error Errno.ENOENT) (none : Option (MumbleLink Int))).ret = -1 ∧
    (Java_com_moonsworth_client_mumble_MumbleLink_init
      (Except.error Errno.EACCES) (none : Option (MumbleLink Int))).ret = -1 :=
  ⟨rfl, rfl⟩

/-- C5 amended: `init` returns 0 on success and -1 on every failure; the
not-available case (ENOENT) is distinguished from other OS failures only
by the absence of error logging, not by the returned value, which never
carries the OS error number. -/
theorem C5_amended_init_status :
    (∀ (link : MumbleLink F) (g : Option (MumbleLink F)),
      Java_com_moonsworth_client_mumble_MumbleLink_init (Except.ok link) g =
        ⟨0, some link, false⟩) ∧
    (∀ g : Option (MumbleLink F),
      Java_com_moonsworth_client_mumble_MumbleLink_init
        (Except.error Errno.ENOENT) g = ⟨-1, g, false⟩) ∧
    (∀ (e : Errno) (g : Option (MumbleLink F)), e ≠ Errno.ENOENT →
      Java_com_moonsworth_client_mumble_MumbleLink_init
        (Except.error e) g = ⟨-1, g, true⟩) := by
  refine ⟨fun link g => rfl, fun g => rfl, fun e g he => ?_⟩
  simp only [Java_com_moonsworth_client_mumble_MumbleLink_init, if_neg he]

/-- Witness for the amended C5: a permission failure returns -1, leaves
the guard slot unchanged and logs. -/
theorem C5_amended_init_status_witness :
    Java_com_moonsworth_client_mumble_MumbleLink_init
      (Except.error Errno.EACCES) (none : Option (MumbleLink Int)) =
      ⟨-1, none, true⟩ :=
  (@C5_amended_init_status Int).2.2 Errno.EACCES none (by decide)

/-- C6 counterexample: update the zeroed record with player name "ABC"
(units 65 66 67), then with the shorter name "A" (unit 65). After the
second update the identity string field holds 65, 0, 67, 0, ...: the
unit 67 at index 2 is a residual of the first name's tail beyond the new
name's null terminator at index 1, refuting both "all string fields are
fully overwritten" and "no residual bytes persist". -/
theorem C6_counterexample :
    (updState dShort (updState dFull zrec)).identity.take 4 = [65, 0, 67, 0] ∧
    (updState dShort (updState dFull zrec)).identity.get? 2 = some 67 :=
  ⟨by decide, by decide⟩

/-- C6 amended: on every successful update the six vector fields are
fully overwritten, but the string and context buffers are overwritten
only up to the copied length (player name plus null terminator, context
byte count); the bytes beyond that copied prefix keep their previous
values, so residual units of a longer earlier name persist past the new
name's terminator. -/
theorem C6_amended_partial_overwrite (d : LinkData F) (m m' : MumbleLink F)
    (pn cx : List Nat) (hpn : d.playerName = some pn)
    (hcx : d.context = some cx)
    (h : update_mumblelink d m = (m', true)) :
    m'.identity.take (pn.length + 1) = pn ++ [0] ∧
    m'.identity.drop (pn.length + 1) = m.identity.drop (pn.length + 1) ∧
    m'.context.take cx.length = cx ∧
    m'.context.drop cx.length = m.context.drop cx.length ∧
    (∀ ap, d.avatarPosition = some ap →
      m'.avatar_position = ⟨ap.xCoord, ap.zCoord, ap.yCoord⟩) := by
  obtain ⟨hap, haf, hat, hcp, hcf, hct, -, -⟩ := update_ok_some d m m' h
  obtain ⟨ap, hap⟩ := Option.isSome_iff_exists.mp hap
  obtain ⟨af, haf⟩ := Option.isSome_iff_exists.mp haf
  obtain ⟨atv, hat⟩ := Option.isSome_iff_exists.mp hat
  obtain ⟨cp, hcp⟩ := Option.isSome_iff_exists.mp hcp
  obtain ⟨cf, hcf⟩ := Option.isSome_iff_exists.mp hcf
  obtain ⟨ct, hct⟩ := Option.isSome_iff_exists.mp hct
  rw [update_mumblelink_ok d m ap af atv cp cf ct pn cx
    hap haf hat hcp hcf hct hpn hcx] at h
  injection h with h1 _
  subst h1
  refine ⟨?_, ?_, ?_, ?_, ?_⟩
  · show (memcpyUnits (pn ++ [0]) m.identity).take (pn.length + 1) = pn ++ [0]
    have : pn.length + 1 = (pn ++ [0]).length := by simp
    rw [this, memcpyUnits, List.take_left]
  · show (memcpyUnits (pn ++ [0]) m.identity).drop (pn.length + 1) = _
    have : pn.length + 1 = (pn ++ [0]).length := by simp
    rw [this, memcpyUnits, List.drop_left, List.length_append,
      List.length_singleton]
  · show (memcpyUnits cx m.context).take cx.length = cx
    rw [memcpyUnits, List.take_left]
  · show (memcpyUnits cx m.context).drop cx.length = _
    rw [memcpyUnits, List.drop_left]
  · intro ap' hap'
    rw [hap] at hap'
    cases hap'
    rfl

/-- Witness for the amended C6 at the "ABC"-then-"A" scenario: the new
prefix is 65, 0 and the tail beyond index 2 is exactly the tail left by
the first update. -/
theorem C6_amended_partial_overwrite_witness :
    (updState dShort (updState dFull zrec)).identity.take 2 = [65] ++ [0] ∧
    (updState dShort (updState dFull zrec)).identity.drop 2 =
      (updState dFull zrec).identity.drop 2 :=
  ⟨(C6_amended_partial_overwrite dShort (updState dFull zrec)
      (updState dShort (updState dFull zrec)) [65] [1, 2] rfl rfl rfl).1,
   (C6_amended_partial_overwrite dShort (updState dFull zrec)
      (updState dShort (updState dFull zrec)) [65] [1, 2] rfl rfl rfl).2.1⟩

/-- C7: after every successful update, `context_len` equals the exact
byte length of the supplied context string, the first `context_len` bytes
of the context buffer equal that string's raw bytes, and the bytes beyond
that length are left as they were (not cleared). -/
theorem C7_context_exact (d : LinkData F) (m m' : MumbleLink F)
    (cx : List Nat) (hcx : d.context = some cx)
    (hlen : cx.length < 2 ^ 32)
    (h : update_mumblelink d m = (m', true)) :
    m'.context_len = cx.length ∧
    m'.context.take cx.length = cx ∧
    m'.context.drop cx.length = m.context.drop cx.length := by
  obtain ⟨hap, haf, hat, hcp, hcf, hct, hpn, -⟩ := update_ok_some d m m' h
  obtain ⟨ap, hap⟩ := Option.isSome_iff_exists.mp hap
  obtain ⟨af, haf⟩ := Option.isSome_iff_exists.mp haf
  obtain ⟨atv, hat⟩ := Option.isSome_iff_exists.mp hat
  obtain ⟨cp, hcp⟩ := Option.isSome_iff_exists.mp hcp
  obtain ⟨cf, hcf⟩ := Option.isSome_iff_exists.mp hcf
  obtain ⟨ct, hct⟩ := Option.isSome_iff_exists.mp hct
  obtain ⟨pn, hpn⟩ := Option.isSome_iff_exists.mp hpn
  rw [update_mumblelink_ok d m ap af atv cp cf ct pn cx
    hap haf hat hcp hcf hct hpn hcx] at h
  injection h with h1 _
  subst h1
  exact ⟨Nat.mod_eq_of_lt hlen,
    by rw [show MumbleLink.context _ = memcpyUnits cx m.context from rfl,
      memcpyUnits, List.take_left],
    by rw [show MumbleLink.context _ = memcpyUnits cx m.context from rfl,
      memcpyUnits, List.drop_left]⟩

/-- Witness for C7 with context bytes [1, 2]: `context_len` is 2, the
first two bytes are 1, 2 and the rest of the buffer is unchanged. -/
theorem C7_context_exact_witness :
    (updState dFull zrec).context_len = 2 ∧
    (updState dFull zrec).context.take 2 = [1, 2] ∧
    (updState dFull zrec).context.drop 2 = zrec.context.drop 2 :=
  C7_context_exact dFull zrec (updState dFull zrec) [1, 2] rfl
    (by decide) rfl

/-- C8: calling the `update` entry point while the guard slot holds no
handle (no prior successful `init`) terminates the process abnormally
(the `expect` on the empty slot): it never silently no-ops, never writes
to any record, and never returns normally. -/
theorem C8_update_before_init (d : LinkData F) :
    Java_com_moonsworth_client_mumble_MumbleLink_update none d =
      UpdateOutcome.crashed "MumbleLink is None" none :=
  rfl

/-- C9: when extracting some field from the bundle fails, the `update`
entry point terminates the process abnormally, and the writes performed
before the failing extraction remain in the record: the tick counter has
already been incremented and the protocol version already set to 2. -/
theorem C9_partial_update_fatal (d : LinkData F) (m m' : MumbleLink F)
    (h : update_mumblelink d m = (m', false)) :
    Java_com_moonsworth_client_mumble_MumbleLink_update (some m) d =
      UpdateOutcome.crashed "JNIError" (some m') ∧
    m'.ui_tick = (m.ui_tick + 1) % 2 ^ 32 ∧
    m'.ui_version = 2 := by
  refine ⟨?_, ?_, ?_⟩
  · simp [Java_com_moonsworth_client_mumble_MumbleLink_update, h]
  · have := (updState_static d m).2.1
    rwa [updState, h] at this
  · have := (updState_static d m).1
    rwa [updState, h] at this

/-- Witness for C9: a bundle whose `avatarFront` extraction fails crashes
the update, and the record visible afterwards has its tick counter
already incremented. -/
theorem C9_partial_update_fatal_witness :
    Java_com_moonsworth_client_mumble_MumbleLink_update (some zrec) dFail =
      UpdateOutcome.crashed "JNIError" (some (updState dFail zrec)) ∧
    (updState dFail zrec).ui_tick = (zrec.ui_tick + 1) % 2 ^ 32 :=
  ⟨(C9_partial_update_fatal dFail zrec (updState dFail zrec) rfl).1,
   (C9_partial_update_fatal dFail zrec (updState dFail zrec) rfl).2.1⟩

/-- C10: when the attach step of `init` fails with any error, the guard
slot is left exactly as it was — a handle stored by a previous successful
`init` is neither cleared nor replaced — so a subsequent `update` call
behaves exactly as it would have before the failed `init`. -/
theorem C10_init_failure_keeps_handle (e : Errno)
    (g : Option (MumbleLink F)) (d : LinkData F) :
    (Java_com_moonsworth_client_mumble_MumbleLink_init
      (Except.error e) g).guard = g ∧
    Java_com_moonsworth_client_mumble_MumbleLink_update
      (Java_com_moonsworth_client_mumble_MumbleLink_init
        (Except.error e) g).guard d =
      Java_com_moonsworth_client_mumble_MumbleLink_update g d :=
  ⟨rfl, rfl⟩

end Mumble
